import Mathlib

/-!
Verification of the webrecorder development bootstrap against its
specification.  The development embeds the two programs of the repository:
the hot-reloading bundler dev server (an unnamed Express entry point) and
the client mount script `frontend/src/client.js`, plus the companion shell
entry point `frontend/run.sh`.  Third-party libraries (webpack middleware,
the render library) are modelled only through the configuration objects the
repository passes to them and through the contracts the specification
states for them; every other definition is a direct translation of the
repository source.
-/

namespace DevServer

/-- A JavaScript number as it occurs in the port computation: `none` stands
for NaN, `some v` for an integer-valued number.  `Number(s)` on an absent
or non-numeric environment string yields NaN, hence `none`. -/
abbrev JSNum := Option Int

/-- JavaScript `x + 1` on a number: NaN propagates. -/
def jsAdd1 : JSNum → JSNum
  | none => none
  | some v => some (v + 1)

/-- JavaScript `a || b` where `a` is a number and `b` a number literal:
NaN and 0 are the falsy numbers, so they select `b`. -/
def jsOr (a : JSNum) (b : Int) : Int :=
  match a with
  | none => b
  | some v => if v = 0 then b else v

/-- Source line `const host = process.env.APP_HOST || '127.0.0.1';`.
An absent variable and the empty string are both falsy. -/
def host (appHost : Option String) : String :=
  match appHost with
  | none => "127.0.0.1"
  | some s => if s = "" then "127.0.0.1" else s

/-- Source line `const port = (Number(process.env.FRONTEND_PORT) + 1) || 8096;`.
The argument is the value of `Number(process.env.FRONTEND_PORT)`. -/
def port (frontendPortNum : JSNum) : Int :=
  jsOr (jsAdd1 frontendPortNum) 8096

/-- The `watchOptions` object of `serverOptions`: `aggregateTimeout` is the
debounce window, `poll` the polling-interval fallback. -/
structure WatchOptions where
  aggregateTimeout : Int
  poll : Int
deriving DecidableEq

/-- The option fields that occur in the two middleware-option objects of the
dev-server source.  A field that one of the objects omits is `Option`-valued
so the omission is visible. -/
structure MiddlewareOptions where
  contentBase : String
  quiet : Option Bool
  noInfo : Option Bool
  inlineOpt : Option Bool
  publicPath : String
  headers : List (String × String)
  statsColors : Bool
  watchOptions : Option WatchOptions
  serverSideRender : Option Bool
deriving DecidableEq

/-- The `serverOptions` constant of the dev-server source (lines 15-27),
including `watchOptions = { aggregateTimeout: 300, poll: 1000 }`.
`publicPath` comes from the external webpack configuration module, so it is
a parameter. -/
def serverOptions (host : String) (port : Int) (publicPath : String) :
    MiddlewareOptions :=
  { contentBase := "http://" ++ host ++ ":" ++ toString port
    quiet := some true
    noInfo := some true
    inlineOpt := some true
    publicPath := publicPath
    headers := [("Access-Control-Allow-Origin", "*")]
    statsColors := true
    watchOptions := some { aggregateTimeout := 300, poll := 1000 }
    serverSideRender := none }

/-- The inline options object actually passed in
`app.use(webpackDevMiddleware(compiler, { stats: ..., headers: ...,
contentBase: ..., publicPath: ..., serverSideRender: true }))`
(line 34 of the dev-server source).  It has no `watchOptions`, `quiet`,
`noInfo` or `inline` field. -/
def devMiddlewareOptions (host : String) (port : Int) (publicPath : String) :
    MiddlewareOptions :=
  { contentBase := "http://" ++ host ++ ":" ++ toString port
    quiet := none
    noInfo := none
    inlineOpt := none
    publicPath := publicPath
    headers := [("Access-Control-Allow-Origin", "*")]
    statsColors := true
    watchOptions := none
    serverSideRender := some true }

/-- An HTTP response for a compiled asset. -/
structure Response where
  path : String
  headers : List (String × String)
deriving DecidableEq

/-- Modelled from the spec: `webpack-dev-middleware` is an external library;
per the specification it serves compiled output under the configured public
path and attaches the configured `headers` to each response it serves. -/
def serveAsset (opts : MiddlewareOptions) (assetPath : String) : Response :=
  { path := opts.publicPath ++ assetPath
    headers := opts.headers }

/-- The observable actions of the dev-server entry point. -/
inductive ServerAction where
  | useDevMiddleware (opts : MiddlewareOptions)
  | useHotMiddleware
  | listen (port : Int)
  | consoleError (msg : String)
  | consoleInfo (msg : String)
deriving DecidableEq

/-- The callback passed to `app.listen` (dev-server source lines 36-42):
on an error it logs the error with `console.error`, otherwise it logs the
startup confirmation with `console.info`; nothing else happens. -/
def listenCallback (port : Int) (err : Option String) : List ServerAction :=
  match err with
  | some e => [ServerAction.consoleError e]
  | none =>
      [ServerAction.consoleInfo
        ("==> 🚧  My HotReload Webpack development server listening on port "
          ++ toString port)]

/-- The complete action trace of the dev-server entry point: install the two
middlewares, issue the single `app.listen`, then run the listen callback on
the bind result (`none` for success, `some e` for a bind error). -/
def serverTrace (host : String) (p : Int) (publicPath : String)
    (err : Option String) : List ServerAction :=
  [ServerAction.useDevMiddleware (devMiddlewareOptions host p publicPath),
   ServerAction.useHotMiddleware,
   ServerAction.listen p]
  ++ listenCallback p err

/-- Whether an action is a listen attempt. -/
def isListen : ServerAction → Bool
  | ServerAction.listen _ => true
  | _ => false

end DevServer

namespace Client

/-- Route tables (the values exported by the route-definition modules) are
abstract identifiers; only their identity matters to the client source. -/
abbrev RouteTable := Nat

/-- The argument object of `renderApp`: in the source both call sites pass
`{ routes: ..., client }`, where `client` is the `ApiClient` instance
(identified here by a number). -/
structure RenderProps where
  routes : RouteTable
  clientId : Nat
deriving DecidableEq

/-- Build-time flags of the client bundle: `__PLAYER__` selects the player
route set, `__DESKTOP__` marks the packaged desktop variant. -/
structure BuildFlags where
  player : Bool
  desktop : Bool

/-- The imported `config` module as far as the client source reads it:
only the `ravenConfig` field is used. -/
structure Config where
  ravenConfig : Option String

/-- The browser and module environment the client script runs in:
the server-injected `window.__data` seed (abstract), whether `module.hot`
is available, and the current exports of the two route modules. -/
structure Env where
  windowData : Option Nat
  moduleHot : Bool
  playerRoutes : RouteTable
  baseRoute : RouteTable

/-- JavaScript truthiness of `config.ravenConfig` in
`if (config.ravenConfig)`: absent and empty values are falsy. -/
def ravenConfigured (cfg : Config) : Bool :=
  match cfg.ravenConfig with
  | none => false
  | some r => r ≠ ""

/-- The hard-coded `src` of the injected script element
(client source line 25). -/
def bundleSrc : String :=
  "http://127.0.0.1:8096/static/main-ce6d544a4ec204f36b27.js"

/-- Identity of the single `ApiClient` constructed at line 20. -/
def apiClientId : Nat := 0

/-- Identity of the single store constructed by `createStore` at line 30.
The client script constructs exactly one store per page load; any later
store construction would receive a fresh, larger identifier. -/
def pageLoadStoreId : Nat := 0

/-- The observable actions of the client bootstrap. -/
inductive ClientAction where
  | injectScript (src : String)
  | createStore (storeId : Nat) (seed : Option Nat)
  | installRaven (cfg : String)
  | setDndFlag (b : Bool)
  | render (storeId : Nat) (props : RenderProps)
  | acceptHot
deriving DecidableEq

/-- The action trace of the top level of `client.js`: inject the bundle
script (lines 23-26), construct the store from `window.__data` (line 30),
install the error reporter when `config.ravenConfig` is truthy
(lines 33-35), render once with the flag-selected route table (line 49),
and register the hot-reload subscription exactly when `module.hot` is
available and the desktop flag is off (line 51). -/
def bootTrace (flags : BuildFlags) (cfg : Config) (env : Env) :
    List ClientAction :=
  [ClientAction.injectScript bundleSrc,
   ClientAction.createStore pageLoadStoreId env.windowData]
  ++ (match cfg.ravenConfig with
      | some r => if r = "" then [] else [ClientAction.installRaven r]
      | none => [])
  ++ [ClientAction.render pageLoadStoreId
        { routes := if flags.player then env.playerRoutes else env.baseRoute
          clientId := apiClientId }]
  ++ (if env.moduleHot && !flags.desktop then [ClientAction.acceptHot] else [])

/-- The callback registered with `module.hot.accept('./baseRoute', ...)`
(client source lines 52-59): re-resolve the route module, set
`window.__isReactDndBackendSetUp = false`, then call `renderApp` with the
re-resolved routes and the closed-over `client` and `store`.
`currentBaseRoute` is what `require('./baseRoute')` yields at callback
time. -/
def hotCallback (currentBaseRoute : RouteTable) : List ClientAction :=
  [ClientAction.setDndFlag false,
   ClientAction.render pageLoadStoreId
     { routes := currentBaseRoute, clientId := apiClientId }]

/-- The render props of the render actions of a trace, in order. -/
def renders : List ClientAction → List RenderProps
  | [] => []
  | ClientAction.render _ p :: rest => p :: renders rest
  | _ :: rest => renders rest

/-- The store identities of the render actions of a trace, in order. -/
def renderStoreIds : List ClientAction → List Nat
  | [] => []
  | ClientAction.render s _ :: rest => s :: renderStoreIds rest
  | _ :: rest => renderStoreIds rest

/-- Whether an action constructs a store. -/
def isCreateStore : ClientAction → Bool
  | ClientAction.createStore _ _ => true
  | _ => false

/-- The element tree rendered under the mount node by one `renderApp` call:
`AppContainer(Provider(Root))` applied to the closed-over store and the
given render props, a pure value of both. -/
structure Tree where
  storeId : Nat
  props : RenderProps
deriving DecidableEq

/-- The `renderApp` function of the client source (lines 37-46) as a
transformer of the mount-element content.  Modelled from the spec for the
external render library call `ReactDOM.hydrate(tree, dest)`: each call
fully replaces the rendered tree under the mount element with the tree
determined by the store and the render props. -/
def renderApp (storeId : Nat) (props : RenderProps) (_mount : Option Tree) :
    Option Tree :=
  some { storeId := storeId, props := props }

end Client

namespace RunSh

/-- The companion shell entry point `frontend/run.sh`: given the expansion
of `"$NODE_ENV"` (an unset variable expands to the empty string), it prints
one message and invokes one npm script.  The result is that
(message, command) pair. -/
def runSh (nodeEnv : String) : String × String :=
  if nodeEnv = "development" then
    ("running production build", "npm run docker-prod")
  else
    ("running development build", "npm run docker-dev")

end RunSh

namespace Client

/-- `renderStoreIds` distributes over list append. -/
theorem renderStoreIds_append (l1 l2 : List ClientAction) :
    renderStoreIds (l1 ++ l2) = renderStoreIds l1 ++ renderStoreIds l2 := by
  induction l1 with
  | nil => rfl
  | cons a rest ih => cases a <;> simp [renderStoreIds, ih]

end Client

/-- C1 (amended): if `Number(FRONTEND_PORT)` is a number `v` other than -1,
the dev server resolves its listen port to `v + 1`; if the variable is
absent or non-numeric (NaN) or equals -1 it resolves to the fallback port
8096. -/
theorem c1_port_resolution (v : Int) (hv : v ≠ -1) :
    DevServer.port (some v) = v + 1 ∧ DevServer.port none = 8096 ∧
    DevServer.port (some (-1)) = 8096 := by
  have h1 : v + 1 ≠ 0 := by omega
  refine ⟨?_, by decide, by decide⟩
  simp [DevServer.port, DevServer.jsAdd1, DevServer.jsOr, h1]

/-- Witness for C1 at the concrete numeric value 3000. -/
theorem c1_port_resolution_witness :
    DevServer.port (some 3000) = 3000 + 1 ∧ DevServer.port none = 8096 ∧
    DevServer.port (some (-1)) = 8096 :=
  c1_port_resolution 3000 (by decide)

/-- C1 counterexample: with `FRONTEND_PORT` set to the numeric value -1 the
code resolves the port to 8096, not to -1 + 1 as the claim states, because
`-1 + 1 = 0` is falsy in the `|| 8096` fallback. -/
theorem c1_port_neg_one_cex :
    DevServer.port (some (-1)) ≠ (-1) + 1 ∧
    DevServer.port (some (-1)) = 8096 := by
  decide

/-- C2: for every route table the hot-reload subscription callback
resolves, the callback makes exactly one render call, that call carries the
newly resolved route table together with the closed-over client, and the
first action of the callback clears the drag-and-drop backend-registration
flag, so the flag is cleared before rendering. -/
theorem c2_hot_callback_renders_once (r : Client.RouteTable) :
    Client.renders (Client.hotCallback r) =
      [{ routes := r, clientId := Client.apiClientId }] ∧
    (Client.hotCallback r).take 1 =
      [Client.ClientAction.setDndFlag false] := by
  exact ⟨rfl, rfl⟩

/-- C3: whenever the desktop flag is set, the boot trace registers no
hot-reload subscription, whatever the availability of `module.hot` and the
rest of the configuration. -/
theorem c3_desktop_no_subscription (player moduleHot : Bool)
    (cfg : Client.Config) (wd : Option Nat) (pr br : Client.RouteTable) :
    Client.ClientAction.acceptHot ∉
      Client.bootTrace { player := player, desktop := true } cfg
        { windowData := wd, moduleHot := moduleHot,
          playerRoutes := pr, baseRoute := br } := by
  rcases cfg with ⟨_ | rv⟩
  · simp [Client.bootTrace]
  · by_cases h : rv = "" <;> simp [Client.bootTrace, h]

/-- C4 (amended): on hot reload the application store is reused, not
replaced: the hot callback constructs no store and its single render call
carries the page-load store identity, the same identity the single render
call of every boot trace carries. -/
theorem c4_store_reused (r : Client.RouteTable) (flags : Client.BuildFlags)
    (cfg : Client.Config) (env : Client.Env) :
    Client.renderStoreIds (Client.hotCallback r) = [Client.pageLoadStoreId] ∧
    Client.renderStoreIds (Client.bootTrace flags cfg env) =
      [Client.pageLoadStoreId] ∧
    (Client.hotCallback r).countP Client.isCreateStore = 0 := by
  refine ⟨rfl, ?_, rfl⟩
  rcases cfg with ⟨_ | rv⟩
  · cases hm : env.moduleHot && !flags.desktop <;>
      simp [Client.bootTrace, Client.renderStoreIds_append, hm,
        Client.renderStoreIds]
  · by_cases h : rv = "" <;>
      cases hm : env.moduleHot && !flags.desktop <;>
        simp [Client.bootTrace, Client.renderStoreIds_append, hm, h,
          Client.renderStoreIds]

/-- C4 counterexample: at a concrete configuration the render call of the
hot-reload callback carries the very store identity constructed at page
load and the callback constructs no new store, so the store the hot-reload
render receives is not distinct from the page-load store. -/
theorem c4_store_not_replaced_cex :
    Client.renderStoreIds (Client.hotCallback 1) = [Client.pageLoadStoreId] ∧
    Client.renderStoreIds
        (Client.bootTrace { player := false, desktop := false }
          { ravenConfig := none }
          { windowData := none, moduleHot := true,
            playerRoutes := 5, baseRoute := 7 }) =
      [Client.pageLoadStoreId] ∧
    (Client.hotCallback 1).countP Client.isCreateStore = 0 := by
  decide

/-- C5 (amended): the dev server defines watch options with a 300 ms
debounce window and a 1000 ms polling fallback in its `serverOptions`
object, but the options object actually passed to the dev middleware
carries no watch options at all. -/
theorem c5_watch_options_defined_but_not_passed (hs : String) (p : Int)
    (pub : String) :
    (DevServer.serverOptions hs p pub).watchOptions =
      some { aggregateTimeout := 300, poll := 1000 } ∧
    (DevServer.devMiddlewareOptions hs p pub).watchOptions = none :=
  ⟨rfl, rfl⟩

/-- C5 counterexample: at the default host, port and a concrete public
path, the options object passed to the dev middleware has no watch
options, although `serverOptions` defines them; the watch options are
never handed to the middleware that performs the watching. -/
theorem c5_watch_options_cex :
    (DevServer.devMiddlewareOptions "127.0.0.1" 8096 "/static/").watchOptions
        = none ∧
    (DevServer.serverOptions "127.0.0.1" 8096 "/static/").watchOptions =
      some { aggregateTimeout := 300, poll := 1000 } :=
  ⟨rfl, rfl⟩

/-- C6: the boot trace installs the global error reporter exactly when
`config.ravenConfig` is configured (truthy); with no endpoint configured no
handler is installed. -/
theorem c6_raven_iff (flags : Client.BuildFlags) (cfg : Client.Config)
    (env : Client.Env) :
    (∃ r, Client.ClientAction.installRaven r ∈
        Client.bootTrace flags cfg env) ↔
      Client.ravenConfigured cfg = true := by
  rcases cfg with ⟨_ | rv⟩
  · cases hm : env.moduleHot && !flags.desktop <;>
      simp [Client.bootTrace, Client.ravenConfigured, hm]
  · by_cases h : rv = "" <;>
      cases hm : env.moduleHot && !flags.desktop <;>
        simp [Client.bootTrace, Client.ravenConfigured, h, hm]

/-- C7: on a bind failure the dev-server trace logs the error to the
console, and the whole trace contains exactly one listen attempt: no
retry, no second listen. -/
theorem c7_bind_failure_no_retry (hs : String) (p : Int) (pub e : String) :
    DevServer.ServerAction.consoleError e ∈
      DevServer.serverTrace hs p pub (some e) ∧
    (DevServer.serverTrace hs p pub (some e)).countP DevServer.isListen
        = 1 := by
  constructor
  · simp [DevServer.serverTrace, DevServer.listenCallback]
  · simp [DevServer.serverTrace, DevServer.listenCallback,
      DevServer.isListen]

/-- C8: calling `renderApp` twice in succession with equal render props
leaves the mount-element content unchanged after the second call. -/
theorem c8_render_idempotent (s : Nat) (p q : Client.RenderProps)
    (m : Option Client.Tree) (hpq : p = q) :
    Client.renderApp s q (Client.renderApp s p m) =
      Client.renderApp s p m := by
  subst hpq
  rfl

/-- Witness for C8 at concrete store, props and an empty mount. -/
theorem c8_render_idempotent_witness :
    Client.renderApp 0 { routes := 1, clientId := 0 }
        (Client.renderApp 0 { routes := 1, clientId := 0 } none) =
      Client.renderApp 0 { routes := 1, clientId := 0 } none :=
  c8_render_idempotent 0 { routes := 1, clientId := 0 }
    { routes := 1, clientId := 0 } none rfl

/-- C9: every response the dev middleware serves for a compiled asset
carries the permissive cross-origin header, because the options object
passed to it configures exactly that header. -/
theorem c9_cors_header (hs : String) (p : Int) (pub asset : String) :
    ("Access-Control-Allow-Origin", "*") ∈
      (DevServer.serveAsset (DevServer.devMiddlewareOptions hs p pub)
        asset).headers := by
  simp [DevServer.serveAsset, DevServer.devMiddlewareOptions]

/-- C10: the shell entry point runs the production build exactly when
`NODE_ENV` is `development`, printing the production message, and runs the
development build for every other value, the empty expansion of an unset
variable included. -/
theorem c10_node_env_inverted (s : String) (hs : s ≠ "development") :
    RunSh.runSh "development" =
      ("running production build", "npm run docker-prod") ∧
    RunSh.runSh s =
      ("running development build", "npm run docker-dev") := by
  refine ⟨by simp [RunSh.runSh], ?_⟩
  simp [RunSh.runSh, hs]

/-- Witness for C10 at the concrete value `production`. -/
theorem c10_node_env_inverted_witness :
    RunSh.runSh "development" =
      ("running production build", "npm run docker-prod") ∧
    RunSh.runSh "production" =
      ("running development build", "npm run docker-dev") :=
  c10_node_env_inverted "production" (by decide)
